import Mathlib

/-!
Shallow embedding of `pkg/internal/webhook/validator.go` from
cert-manager approver-policy: the admission validation coordinator for
CertificateRequestPolicy resources — resource-kind dispatch (`Handle`),
the base rule checks and the sequential Validator Plugin chain
(`certificateRequestPolicy`), decoder injection (`InjectDecoder`) and the
readiness check (`check`).

External collaborators (apimachinery's field-error helpers and label
selector compilation, controller-runtime's decoder, the policy API types)
are not under the repository's source tree; they are modelled at the
boundary the spec fixes for them, as noted on each definition.
-/

namespace field

/-- Failure kinds used by the source (apimachinery
`k8s.io/apimachinery/pkg/util/validation/field`): required, invalid,
not-supported. -/
inductive ErrorType where
  | required
  | invalid
  | notSupported
deriving DecidableEq

/-- The values the source attaches to an error (Go `interface\x7b\x7d`):
a string (a plugin name, or the empty string for required errors) or a
label mapping. -/
inductive Value where
  | str (s : String)
  | labels (m : List (String × String))
deriving DecidableEq

/-- A field path (apimachinery `field.Path`), rendered as the dot-joined
string the errors carry, e.g. `spec.plugins`. -/
abbrev Path := String

/-- apimachinery `field.NewPath`. -/
def NewPath (name : String) : Path := name

/-- apimachinery `Path.Child`: append one path component. -/
def Path.Child (p : Path) (name : String) : Path := p ++ "." ++ name

/-- One structured validation failure (apimachinery `field.Error`):
failure kind, rendered path, offending value, human-readable detail. -/
structure Error where
  «Type» : ErrorType
  Field : String
  BadValue : Value
  Detail : String
deriving DecidableEq

/-- Quote a plain registry name, as `strconv.Quote` does on the plain
plugin-name strings the source passes. -/
def quote (s : String) : String := "\"" ++ s ++ "\""

/-- apimachinery `field.NotSupported`: a not-supported error whose detail
lists the valid values, quoted and comma-joined. -/
def NotSupported (fld : Path) (value : String) (validValues : List String) : Error :=
  { «Type» := .notSupported
    Field := fld
    BadValue := .str value
    Detail :=
      if validValues.length > 0 then
        "supported values: " ++ String.intercalate ", " (validValues.map quote)
      else "" }

/-- apimachinery `field.Required`: a required-field error (the bad value
is the empty string). -/
def Required (fld : Path) (detail : String) : Error :=
  { «Type» := .required, Field := fld, BadValue := .str "", Detail := detail }

/-- apimachinery `field.Invalid`: an invalid-field error carrying the
offending value and a detail. -/
def Invalid (fld : Path) (value : Value) (detail : String) : Error :=
  { «Type» := .invalid, Field := fld, BadValue := value, Detail := detail }

abbrev ErrorList := List Error

/-- Rendering of a failure kind (apimachinery `ErrorType.String`). -/
def ErrorType.str : ErrorType → String
  | .required => "Required value"
  | .invalid => "Invalid value"
  | .notSupported => "Unsupported value"

/-- Rendering of an offending value. -/
def Value.render : Value → String
  | .str s => quote s
  | .labels m => "map[" ++ String.intercalate " " (m.map (fun kv => kv.1 ++ ":" ++ kv.2)) ++ "]"

/-- Rendering of an error's body (apimachinery `Error.ErrorBody`):
required errors omit the value, other kinds show it. -/
def Error.ErrorBody (e : Error) : String :=
  match e.«Type» with
  | .required => ErrorType.str e.«Type» ++ (if e.Detail = "" then "" else ": " ++ e.Detail)
  | _ =>
    ErrorType.str e.«Type» ++ ": " ++ e.BadValue.render ++
      (if e.Detail = "" then "" else ": " ++ e.Detail)

/-- Rendering of a whole error (apimachinery `Error.Error`):
path, colon, body. -/
def Error.render (e : Error) : String := e.Field ++ ": " ++ e.ErrorBody

/-- Drop later duplicates, keeping first occurrences (the deduplication
`ErrorList.ToAggregate` performs on rendered messages). -/
def dedupFrom (seen : List String) : List String → List String
  | [] => []
  | m :: rest => if seen.contains m then dedupFrom seen rest else m :: dedupFrom (m :: seen) rest

/-- Modelled from the spec: the single aggregated denial message
(apimachinery `ErrorList.ToAggregate().Error()`, outside src/): duplicate
rendered messages collapse, a single message stands alone, several are
comma-joined and bracketed. -/
def ToAggregate (el : ErrorList) : String :=
  match dedupFrom [] (el.map Error.render) with
  | [m] => m
  | msgs => "[" ++ String.intercalate ", " msgs ++ "]"

end field

namespace metav1

/-- apimachinery `metav1.GroupVersionKind`. -/
structure GroupVersionKind where
  Group : String
  Version : String
  Kind : String
deriving DecidableEq

end metav1

namespace policy

/-- `pkg/apis/policy` group-name constant (outside src/; the API group of
the project, named by the spec's recognized kind). -/
def GroupName : String := "policy.cert-manager.io"

end policy

namespace policyapi

/-- Issuer-reference sub-selector (`pkg/apis/policy/v1alpha1`, outside
src/): the validator never reads its fields, only its presence, so it is
modelled opaque. -/
structure CertificateRequestPolicySelectorIssuerRef where
  mk ::

/-- Namespace sub-selector: only the `MatchLabels` mapping the validator
reads is modelled; the mapping is the map's key/value pairs in iteration
order. -/
structure CertificateRequestPolicySelectorNamespace where
  MatchLabels : List (String × String)

/-- The policy selector: two optional, independently settable
sub-selectors (spec §3). -/
structure CertificateRequestPolicySelector where
  IssuerRef : Option CertificateRequestPolicySelectorIssuerRef
  Namespace : Option CertificateRequestPolicySelectorNamespace

/-- The policy spec: only the fields the validator reads are modelled.
`Plugins` is the plugin map's key set in Go-map iteration order (the
values, opaque plugin data, are never read by the validator; a Go map's
keys are unique and their order is arbitrary). -/
structure CertificateRequestPolicySpec where
  Plugins : List String
  Selector : CertificateRequestPolicySelector

/-- The submitted policy resource. -/
structure CertificateRequestPolicy where
  Spec : CertificateRequestPolicySpec

end policyapi

namespace admission

/-- controller-runtime `admission.Request`: the declared kind (possibly
absent) and the raw object bytes. -/
structure Request where
  RequestKind : Option metav1.GroupVersionKind
  Object : String

/-- controller-runtime `admission.Response`, restricted to the three
constructors the source uses: `Allowed(msg)`, `Denied(msg)`,
`Errored(httpStatus, msg)`. -/
inductive Response where
  | Allowed (msg : String)
  | Denied (msg : String)
  | Errored (code : Nat) (msg : String)
deriving DecidableEq

/-- The late-injected object decoder (controller-runtime, outside src/;
spec §6a): a capability turning a request into a policy resource or a
decode error. -/
def Decoder : Type :=
  Request → Except String policyapi.CertificateRequestPolicy

end admission

namespace approver

/-- `approver.WebhookResult` (pkg/approver, outside src/; the spec's
ValidatorPluginResponse, §3): allowed verdict plus field errors. -/
structure WebhookResult where
  Allowed : Bool
  Errors : field.ErrorList

/-- A registered Validator Plugin's `Validate` capability (spec §6c),
specialised to the one call the coordinator makes per request: on a
policy resource it yields a result or an execution error. -/
def Webhook : Type :=
  policyapi.CertificateRequestPolicy → Except String WebhookResult

end approver

namespace webhook

/-- The validator of `validator.go`. `log` is omitted (logging has no
observable effect); `lock` is modelled by treating each operation on the
shared `decoder` handle as atomic, which is what the read/write lock
discipline of §5 guarantees; `lister` is never read in this file.
`labelSelectorCompile` stands for the fixed external collaborator
`metav1.LabelSelectorAsSelector` applied to a `MatchLabels` mapping
(apimachinery, outside src/): `some msg` is a compilation failure with
message `msg`, `none` is success. -/
structure validator where
  registeredPlugins : List String
  webhooks : List approver.Webhook
  decoder : Option admission.Decoder
  labelSelectorCompile : List (String × String) → Option String

/-- Lines 101-123 of the source: collect the declared plugin names absent
from the registry; if any exist, sort them (`sort.Strings`) and emit one
not-supported error per name on `spec.plugins`, each listing the full
registry. -/
def unrecognisedPluginErrors (v : validator)
    (policy : policyapi.CertificateRequestPolicy) : field.ErrorList :=
  let fldPath := field.NewPath "spec"
  let unrecognisedNames :=
    policy.Spec.Plugins.filter (fun name => !v.registeredPlugins.contains name)
  if unrecognisedNames.length > 0 then
    (List.insertionSort (fun a b => a ≤ b) unrecognisedNames).map
      (fun name => field.NotSupported (fldPath.Child "plugins") name v.registeredPlugins)
  else []

/-- Lines 125-127 of the source: if neither sub-selector is present, emit
the required-field error on `spec.selector`. -/
def selectorRequiredErrors (policy : policyapi.CertificateRequestPolicy) :
    field.ErrorList :=
  let fldPath := field.NewPath "spec"
  if policy.Spec.Selector.IssuerRef.isNone && policy.Spec.Selector.Namespace.isNone then
    [field.Required (fldPath.Child "selector")
      "one of issuerRef or namespace must be defined, hint: `\x7b\x7d` on either matches everything"]
  else []

/-- Lines 129-133 of the source: if the namespace sub-selector is present
with a non-empty label mapping, attempt to compile it; on failure emit the
invalid-field error on `spec.selector.namespace.matchLabels` carrying the
mapping and the parse error text. -/
def matchLabelsErrors (v : validator)
    (policy : policyapi.CertificateRequestPolicy) : field.ErrorList :=
  let fldPath := field.NewPath "spec"
  match policy.Spec.Selector.Namespace with
  | some nsSel =>
    if nsSel.MatchLabels.length > 0 then
      match v.labelSelectorCompile nsSel.MatchLabels with
      | some err =>
        [field.Invalid (((fldPath.Child "selector").Child "namespace").Child "matchLabels")
          (.labels nsSel.MatchLabels) err]
      | none => []
    else []
  | none => []

/-- The base rule checks of `certificateRequestPolicy` (lines 95-133): the
error list accumulated, in order, before the webhook loop runs. -/
def baseFieldErrors (v : validator)
    (policy : policyapi.CertificateRequestPolicy) : field.ErrorList :=
  unrecognisedPluginErrors v policy ++ selectorRequiredErrors policy ++
    matchLabelsErrors v policy

/-- Lines 135-145 of the source: invoke each registered webhook in order;
an execution error aborts immediately, returning a nil error list and the
error; a response with `Allowed == false` appends its errors. -/
def runWebhooks (webhooks : List approver.Webhook)
    (policy : policyapi.CertificateRequestPolicy) (el : field.ErrorList) :
    field.ErrorList × Option String :=
  match webhooks with
  | [] => (el, none)
  | w :: rest =>
    match w policy with
    | .error err => ([], some err)
    | .ok response =>
      runWebhooks rest policy (if response.Allowed then el else el ++ response.Errors)

/-- `certificateRequestPolicy` (lines 95-146): base rule checks, then the
registered webhooks in registration order. -/
def certificateRequestPolicy (v : validator)
    (policy : policyapi.CertificateRequestPolicy) :
    field.ErrorList × Option String :=
  runWebhooks v.webhooks policy (baseFieldErrors v policy)

/-- The one recognized group/version/kind (the `case` literal on line 61). -/
def certificateRequestPolicyGVK : metav1.GroupVersionKind :=
  { Group := policy.GroupName, Version := "v1alpha1", Kind := "CertificateRequestPolicy" }

/-- Decode through the guarded handle, as `Handle` does under the read
lock. Modelled from the spec where the handle is unset: §4.2 and §6 fix
that a decode before injection surfaces as a decode error (the nil-handle
behaviour itself lives in controller-runtime, outside src/). -/
def decodeWith (d : Option admission.Decoder) (req : admission.Request) :
    Except String policyapi.CertificateRequestPolicy :=
  match d with
  | some dec => dec req
  | none => .error "decoder has not been injected"

/-- `Handle` (lines 52-91): dispatch on the declared kind; decode; run the
coordinator; map the outcome. Status codes 400 and 500 are
`http.StatusBadRequest` and `http.StatusInternalServerError`. -/
def Handle (v : validator) (req : admission.Request) : admission.Response :=
  match req.RequestKind with
  | none => .Errored 400 "no resource kind sent in request"
  | some requestKind =>
    if requestKind = certificateRequestPolicyGVK then
      match decodeWith v.decoder req with
      | .error err => .Errored 400 err
      | .ok pol =>
        match certificateRequestPolicy v pol with
        | (_, some err) => .Errored 500 err
        | (el, none) =>
          if el.length > 0 then .Denied (field.ToAggregate el)
          else .Allowed "CertificateRequestPolicy validated"
    else
      .Denied ("validation request for unrecognised resource type: " ++
        requestKind.Group ++ "/" ++ requestKind.Version ++ " " ++ requestKind.Kind)

/-- `InjectDecoder` (lines 150-156): set the handle under the write lock;
always returns nil error. The argument is the Go pointer, so possibly nil. -/
def InjectDecoder (v : validator) (d : Option admission.Decoder) :
    validator × Option String :=
  ({ v with decoder := d }, none)

/-- `check` (lines 160-169): ready exactly when the decoder handle is set. -/
def check (v : validator) : Option String :=
  match v.decoder with
  | some _ => none
  | none => some "not ready"

/-- The operations that touch the validator's shared state (§5): decoder
injection, the readiness check, and request handling. `check` and
`Handle` only read the state; the lock discipline makes each operation
atomic, so a history is a sequence of these operations. -/
inductive Op where
  | inject (d : Option admission.Decoder)
  | checkOp
  | handle (req : admission.Request)

/-- State transition of one operation. -/
def step (v : validator) : Op → validator
  | .inject d => (InjectDecoder v d).1
  | .checkOp => v
  | .handle _ => v

/-- Run a sequence of operations. -/
def run (v : validator) (ops : List Op) : validator :=
  ops.foldl step v

end webhook

/-! ## Concrete fixtures used by the claim witnesses -/

/-- A well-formed sample policy: no plugins, issuer-reference selector set. -/
def samplePolicy : policyapi.CertificateRequestPolicy :=
  { Spec := { Plugins := [], Selector := { IssuerRef := some {}, Namespace := none } } }

/-- A decoder that decodes every request to `samplePolicy`. -/
def sampleDecoder : admission.Decoder := fun _ => .ok samplePolicy

/-- A request declaring the recognized kind. -/
def sampleRequest : admission.Request :=
  { RequestKind := some webhook.certificateRequestPolicyGVK, Object := "" }

/-- A plugin that allows but carries a junk error in its response. -/
def allowWithJunkErrors : approver.Webhook :=
  fun _ => .ok { Allowed := true, Errors := [field.Required "spec" "junk"] }

/-- A plugin that denies with an empty error list. -/
def denyWithNoErrors : approver.Webhook :=
  fun _ => .ok { Allowed := false, Errors := [] }

/-- A validator wired with the two plugins above. -/
def mixedVerdictValidator : webhook.validator :=
  { registeredPlugins := [], webhooks := [allowWithJunkErrors, denyWithNoErrors],
    decoder := some sampleDecoder, labelSelectorCompile := fun _ => none }

/-- A validator with no plugins whose decoder always succeeds. -/
def plainValidator : webhook.validator :=
  { registeredPlugins := [], webhooks := [], decoder := some sampleDecoder,
    labelSelectorCompile := fun _ => none }

/-- A validator whose label-selector compilation always fails. -/
def badLabelValidator : webhook.validator :=
  { registeredPlugins := [], webhooks := [], decoder := none,
    labelSelectorCompile := fun _ => some "parse error" }

/-- A resource whose namespace sub-selector carries one label pair. -/
def labelledPolicy : policyapi.CertificateRequestPolicy :=
  { Spec := { Plugins := [],
              Selector := { IssuerRef := none,
                            Namespace := some { MatchLabels := [("a", "b")] } } } }

/-- A decoder that decodes every request to `labelledPolicy`. -/
def labelledDecoder : admission.Decoder := fun _ => .ok labelledPolicy

/-- A validator with no plugins, a decoder yielding `labelledPolicy`, and
a label-selector compilation that fails. -/
def badLabelHandlingValidator : webhook.validator :=
  { registeredPlugins := [], webhooks := [], decoder := some labelledDecoder,
    labelSelectorCompile := fun _ => some "parse error" }

/-- A validator whose registry holds the single plugin name "x". -/
def registryXValidator : webhook.validator :=
  { registeredPlugins := ["x"], webhooks := [], decoder := none,
    labelSelectorCompile := fun _ => none }

/-- A resource whose plugin map iterates as "b" then "a". -/
def policyBA : policyapi.CertificateRequestPolicy :=
  { Spec := { Plugins := ["b", "a"],
              Selector := { IssuerRef := some {}, Namespace := none } } }

/-- The same resource with the opposite iteration order, "a" then "b". -/
def policyAB : policyapi.CertificateRequestPolicy :=
  { Spec := { Plugins := ["a", "b"],
              Selector := { IssuerRef := some {}, Namespace := none } } }

/-! ## Lemmas about the webhook chain -/

namespace webhook

lemma runWebhooks_ok_cons (w : approver.Webhook) (rest : List approver.Webhook)
    (pol : policyapi.CertificateRequestPolicy) (el : field.ErrorList)
    (r : approver.WebhookResult) (hw : w pol = .ok r) :
    runWebhooks (w :: rest) pol el =
      runWebhooks rest pol (if r.Allowed then el else el ++ r.Errors) := by
  simp [runWebhooks, hw]

lemma runWebhooks_error_cons (w : approver.Webhook) (rest : List approver.Webhook)
    (pol : policyapi.CertificateRequestPolicy) (el : field.ErrorList)
    (e : String) (hw : w pol = .error e) :
    runWebhooks (w :: rest) pol el = ([], some e) := by
  simp [runWebhooks, hw]

lemma runWebhooks_abort (pre : List approver.Webhook) (w : approver.Webhook)
    (post : List approver.Webhook) (pol : policyapi.CertificateRequestPolicy)
    (e : String) (hpre : ∀ p ∈ pre, ∃ r, p pol = .ok r) (hw : w pol = .error e) :
    ∀ el, runWebhooks (pre ++ w :: post) pol el = ([], some e) := by
  induction pre with
  | nil =>
    intro el
    simpa using runWebhooks_error_cons w post pol el e hw
  | cons p rest ih =>
    intro el
    obtain ⟨r, hr⟩ := hpre p (by simp)
    rw [List.cons_append, runWebhooks_ok_cons p _ pol el r hr]
    exact ih (fun q hq => hpre q (by simp [hq])) _

end webhook

/-! ## Claims -/

/-- C1: if some registered Validator Plugin's Validate call returns an
execution error, `certificateRequestPolicy` returns the empty (nil)
error list together with that error — whatever the base checks and the
earlier plugins contributed, and regardless of the plugins after the
failing one (so none of them is invoked) — and `Handle` maps this to an
Errored outcome with HTTP status 500. -/
theorem C1_plugin_error_aborts (v : webhook.validator)
    (pol : policyapi.CertificateRequestPolicy)
    (pre post : List approver.Webhook) (w : approver.Webhook) (e : String)
    (hw : v.webhooks = pre ++ w :: post)
    (hpre : ∀ p ∈ pre, ∃ r, p pol = .ok r)
    (herr : w pol = .error e)
    (req : admission.Request) (dec : admission.Decoder)
    (hdec : v.decoder = some dec)
    (hreq : req.RequestKind = some webhook.certificateRequestPolicyGVK)
    (hdecode : dec req = .ok pol) :
    webhook.certificateRequestPolicy v pol = ([], some e) ∧
      webhook.Handle v req = .Errored 500 e := by
  have hcrp : webhook.certificateRequestPolicy v pol = ([], some e) := by
    unfold webhook.certificateRequestPolicy
    rw [hw]
    exact webhook.runWebhooks_abort pre w post pol e hpre herr _
  refine ⟨hcrp, ?_⟩
  unfold webhook.Handle
  rw [hreq]
  simp [webhook.decodeWith, hdec, hdecode, hcrp]

/-- Witness for C1 at a concrete input: one registered plugin failing with
"boom". -/
theorem C1_plugin_error_aborts_witness :
    webhook.certificateRequestPolicy
        { registeredPlugins := [], webhooks := [fun _ => .error "boom"],
          decoder := some sampleDecoder, labelSelectorCompile := fun _ => none }
        samplePolicy = ([], some "boom") ∧
      webhook.Handle
        { registeredPlugins := [], webhooks := [fun _ => .error "boom"],
          decoder := some sampleDecoder, labelSelectorCompile := fun _ => none }
        sampleRequest = .Errored 500 "boom" :=
  C1_plugin_error_aborts _ samplePolicy [] [] (fun _ => .error "boom") "boom" rfl
    (by simp) rfl sampleRequest sampleDecoder rfl rfl rfl

/-! ## Lemmas about the base checks and the operation machine -/

namespace webhook

lemma unrecognisedPluginErrors_eq (v : validator)
    (pol : policyapi.CertificateRequestPolicy) :
    unrecognisedPluginErrors v pol =
      (List.insertionSort (fun a b => a ≤ b)
          (pol.Spec.Plugins.filter (fun n => !v.registeredPlugins.contains n))).map
        (fun name =>
          field.NotSupported ((field.NewPath "spec").Child "plugins") name
            v.registeredPlugins) := by
  simp only [unrecognisedPluginErrors]
  split
  · rfl
  · next h =>
    have hnil : pol.Spec.Plugins.filter (fun n => !v.registeredPlugins.contains n) = [] := by
      cases hf : pol.Spec.Plugins.filter (fun n => !v.registeredPlugins.contains n) with
      | nil => rfl
      | cons a l => rw [hf] at h; simp at h
    rw [hnil]
    rfl

lemma mem_unrecognisedPluginErrors (v : validator)
    (pol : policyapi.CertificateRequestPolicy) (e : field.Error)
    (he : e ∈ unrecognisedPluginErrors v pol) :
    ∃ name, e = field.NotSupported ((field.NewPath "spec").Child "plugins") name
      v.registeredPlugins := by
  rw [unrecognisedPluginErrors_eq] at he
  obtain ⟨name, -, rfl⟩ := List.mem_map.mp he
  exact ⟨name, rfl⟩

lemma mem_selectorRequiredErrors (pol : policyapi.CertificateRequestPolicy)
    (e : field.Error) (he : e ∈ selectorRequiredErrors pol) :
    e = field.Required ((field.NewPath "spec").Child "selector")
      "one of issuerRef or namespace must be defined, hint: `\x7b\x7d` on either matches everything" := by
  simp only [selectorRequiredErrors] at he
  split at he
  · simpa using he
  · simp at he

lemma mem_matchLabelsErrors (v : validator)
    (pol : policyapi.CertificateRequestPolicy) (e : field.Error)
    (he : e ∈ matchLabelsErrors v pol) :
    ∃ nsSel err, pol.Spec.Selector.Namespace = some nsSel ∧
      e = field.Invalid
        ((((field.NewPath "spec").Child "selector").Child "namespace").Child "matchLabels")
        (.labels nsSel.MatchLabels) err := by
  simp only [matchLabelsErrors] at he
  split at he
  next nsSel hns =>
    split at he
    · split at he
      next err hc =>
        simp only [List.mem_singleton] at he
        exact ⟨nsSel, err, hns, he⟩
      next hc => simp at he
    · simp at he
  next hns => simp at he

lemma selectorRequiredErrors_eq_nil (pol : policyapi.CertificateRequestPolicy)
    (h : (pol.Spec.Selector.IssuerRef.isSome || pol.Spec.Selector.Namespace.isSome) = true) :
    selectorRequiredErrors pol = [] := by
  simp only [selectorRequiredErrors]
  rw [if_neg]
  intro hcontra
  cases h1 : pol.Spec.Selector.IssuerRef <;> cases h2 : pol.Spec.Selector.Namespace <;>
    simp [h1, h2] at hcontra h ⊢

lemma matchLabelsErrors_eq_nil (v : validator)
    (pol : policyapi.CertificateRequestPolicy)
    (h : ∀ nsSel, pol.Spec.Selector.Namespace = some nsSel →
      nsSel.MatchLabels = [] ∨ v.labelSelectorCompile nsSel.MatchLabels = none) :
    matchLabelsErrors v pol = [] := by
  simp only [matchLabelsErrors]
  cases hns : pol.Spec.Selector.Namespace with
  | none => rfl
  | some nsSel =>
    rcases h nsSel hns with hl | hc
    · simp [hl]
    · simp [hc]

lemma runWebhooks_no_denial_errors (ws : List approver.Webhook)
    (pol : policyapi.CertificateRequestPolicy)
    (h : ∀ w ∈ ws, ∃ r, w pol = .ok r ∧ (r.Allowed = true ∨ r.Errors = [])) :
    ∀ el, runWebhooks ws pol el = (el, none) := by
  induction ws with
  | nil => intro el; rfl
  | cons w rest ih =>
    intro el
    obtain ⟨r, hr, hcase⟩ := h w (by simp)
    rw [runWebhooks_ok_cons w rest pol el r hr]
    have hstep : (if r.Allowed then el else el ++ r.Errors) = el := by
      rcases hcase with ha | he
      · rw [ha]; rfl
      · rw [he]; simp
    rw [hstep]
    exact ih (fun q hq => h q (by simp [hq])) el

lemma run_cons (v : validator) (op : Op) (ops : List Op) :
    run v (op :: ops) = run (step v op) ops := rfl

lemma run_append (v : validator) (l1 l2 : List Op) :
    run v (l1 ++ l2) = run (run v l1) l2 :=
  List.foldl_append _ _ _ _

lemma run_preserves_isSome (ops : List Op) : ∀ v : validator,
    (∀ d, Op.inject d ∈ ops → d.isSome = true) → v.decoder.isSome = true →
    (run v ops).decoder.isSome = true := by
  induction ops with
  | nil => intro v _ h; exact h
  | cons op rest ih =>
    intro v hinj h
    rw [run_cons]
    refine ih (step v op) (fun d hd => hinj d (by simp [hd])) ?_
    cases op with
    | inject d => simpa [step, InjectDecoder] using hinj d (by simp)
    | checkOp => exact h
    | handle _ => exact h

lemma run_reaches_isSome (pre : List Op) : ∀ (v : validator) (d : admission.Decoder),
    Op.inject (some d) ∈ pre → (∀ e, Op.inject e ∈ pre → e.isSome = true) →
    (run v pre).decoder.isSome = true := by
  induction pre with
  | nil => intro v d h _; simp at h
  | cons op rest ih =>
    intro v d hmem hinj
    rw [run_cons]
    rcases List.mem_cons.mp hmem with heq | htail
    · rw [← heq]
      exact run_preserves_isSome rest _ (fun e he => hinj e (by simp [he]))
        (by simp [step, InjectDecoder])
    · exact ih _ d htail (fun e he => hinj e (by simp [he]))

end webhook

/-- C6: a request whose declared kind is present but is not the recognized
CertificateRequestPolicy group/version/kind is Denied — never Errored —
with a message naming the unrecognised group, version and kind. -/
theorem C6_unrecognised_kind_denied (v : webhook.validator)
    (req : admission.Request) (gvk : metav1.GroupVersionKind)
    (hreq : req.RequestKind = some gvk)
    (hne : gvk ≠ webhook.certificateRequestPolicyGVK) :
    webhook.Handle v req =
      .Denied ("validation request for unrecognised resource type: " ++
        gvk.Group ++ "/" ++ gvk.Version ++ " " ++ gvk.Kind) := by
  unfold webhook.Handle
  rw [hreq]
  simp [hne]

/-- Witness for C6: a Deployment request is denied with the descriptive
message. -/
theorem C6_unrecognised_kind_denied_witness :
    webhook.Handle
      { registeredPlugins := [], webhooks := [], decoder := some sampleDecoder,
        labelSelectorCompile := fun _ => none }
      { RequestKind := some { Group := "apps", Version := "v1", Kind := "Deployment" },
        Object := "" } =
      .Denied ("validation request for unrecognised resource type: " ++
        "apps" ++ "/" ++ "v1" ++ " " ++ "Deployment") :=
  C6_unrecognised_kind_denied _ _ { Group := "apps", Version := "v1", Kind := "Deployment" }
    rfl (by decide)

/-- C7: the decoder handle starts unset and, across any sequence of
injections (carrying real decoders, as controller-runtime supplies),
readiness checks and request handlings, it transitions from unset to set
at the first injection and never reverts: `check` reports "not ready"
on the initial state, and after a history containing an injection every
later point of the history observes the handle as set. -/
theorem C7_decoder_handle_monotone (v0 : webhook.validator)
    (h0 : v0.decoder = none)
    (pre post : List webhook.Op) (d : admission.Decoder)
    (hmem : webhook.Op.inject (some d) ∈ pre)
    (hinj : ∀ e, webhook.Op.inject e ∈ pre ++ post → e.isSome = true) :
    webhook.check v0 = some "not ready" ∧
      webhook.check (webhook.run v0 (pre ++ post)) = none := by
  constructor
  · simp [webhook.check, h0]
  · have hsome : (webhook.run v0 (pre ++ post)).decoder.isSome = true := by
      rw [webhook.run_append]
      exact webhook.run_preserves_isSome post _
        (fun e he => hinj e (by simp [he]))
        (webhook.run_reaches_isSome pre v0 d hmem
          (fun e he => hinj e (by simp [he])))
    obtain ⟨dec, hdec⟩ := Option.isSome_iff_exists.mp hsome
    simp [webhook.check, hdec]

/-- Witness for C7: inject once, then check; the initial state is not
ready, the final one is. -/
theorem C7_decoder_handle_monotone_witness :
    webhook.check
      { registeredPlugins := [], webhooks := [], decoder := none,
        labelSelectorCompile := fun _ => none } = some "not ready" ∧
      webhook.check
        (webhook.run
          { registeredPlugins := [], webhooks := [], decoder := none,
            labelSelectorCompile := fun _ => none }
          ([webhook.Op.inject (some sampleDecoder)] ++ [webhook.Op.checkOp])) = none :=
  C7_decoder_handle_monotone _ rfl
    [webhook.Op.inject (some sampleDecoder)] [webhook.Op.checkOp] sampleDecoder
    (by simp)
    (by
      intro e he
      simp only [List.cons_append, List.nil_append, List.mem_cons,
        List.not_mem_nil, or_false] at he
      rcases he with he | he
      · cases he; rfl
      · cases he)

/-- C8: a recognized-kind request handled while the decoder handle is
still unset yields a client-error outcome with HTTP status 400, just as
a decode failure after injection does; the decode path is total on the
unset handle. -/
theorem C8_unset_decoder_client_error (v : webhook.validator)
    (req : admission.Request)
    (hdec : v.decoder = none)
    (hreq : req.RequestKind = some webhook.certificateRequestPolicyGVK) :
    webhook.Handle v req = .Errored 400 "decoder has not been injected" ∧
      (∀ (v2 : webhook.validator) (dec : admission.Decoder) (e : String),
        v2.decoder = some dec → dec req = .error e →
        webhook.Handle v2 req = .Errored 400 e) := by
  constructor
  · unfold webhook.Handle
    rw [hreq]
    simp [webhook.decodeWith, hdec]
  · intro v2 dec e h1 h2
    unfold webhook.Handle
    rw [hreq]
    simp [webhook.decodeWith, h1, h2]

/-- Witness for C8: a validator with no decoder yields 400 on the
recognized kind; one whose decoder fails with "bad bytes" also yields
400. -/
theorem C8_unset_decoder_client_error_witness :
    webhook.Handle
      { registeredPlugins := [], webhooks := [], decoder := none,
        labelSelectorCompile := fun _ => none }
      sampleRequest = .Errored 400 "decoder has not been injected" ∧
      webhook.Handle
        { registeredPlugins := [], webhooks := [],
          decoder := some (fun _ => .error "bad bytes"),
          labelSelectorCompile := fun _ => none }
        sampleRequest = .Errored 400 "bad bytes" :=
  ⟨(C8_unset_decoder_client_error _ sampleRequest rfl rfl).1,
    (C8_unset_decoder_client_error
        { registeredPlugins := [], webhooks := [], decoder := none,
          labelSelectorCompile := fun _ => none }
        sampleRequest rfl rfl).2
      { registeredPlugins := [], webhooks := [],
        decoder := some (fun _ => .error "bad bytes"),
        labelSelectorCompile := fun _ => none }
      (fun _ => .error "bad bytes") "bad bytes" rfl rfl⟩

/-- C9: with no registered Validator Plugins, `certificateRequestPolicy`
always returns a nil execution error and exactly the concatenation of the
three base checks' errors; each base check is a function of its own part
of the resource only, so the checks contribute independently of one
another. (The embedding is purely functional, so the resource is never
mutated by construction.) -/
theorem C9_no_webhooks_never_errors (v : webhook.validator)
    (hw : v.webhooks = []) (pol : policyapi.CertificateRequestPolicy) :
    webhook.certificateRequestPolicy v pol =
      (webhook.unrecognisedPluginErrors v pol ++ webhook.selectorRequiredErrors pol ++
        webhook.matchLabelsErrors v pol, none) ∧
    (∀ pol2 : policyapi.CertificateRequestPolicy,
      pol2.Spec.Plugins = pol.Spec.Plugins →
      webhook.unrecognisedPluginErrors v pol2 = webhook.unrecognisedPluginErrors v pol) ∧
    (∀ pol2 : policyapi.CertificateRequestPolicy,
      pol2.Spec.Selector = pol.Spec.Selector →
      webhook.selectorRequiredErrors pol2 = webhook.selectorRequiredErrors pol ∧
        webhook.matchLabelsErrors v pol2 = webhook.matchLabelsErrors v pol) := by
  refine ⟨?_, ?_, ?_⟩
  · unfold webhook.certificateRequestPolicy webhook.baseFieldErrors
    rw [hw]
    rfl
  · intro pol2 h
    unfold webhook.unrecognisedPluginErrors
    rw [h]
  · intro pol2 h
    constructor
    · unfold webhook.selectorRequiredErrors
      rw [h]
    · unfold webhook.matchLabelsErrors
      rw [h]

/-- Witness for C9: a resource with one unknown plugin name and no
selector, validated with an empty plugin list. -/
theorem C9_no_webhooks_never_errors_witness :
    webhook.certificateRequestPolicy
        { registeredPlugins := ["x"], webhooks := [], decoder := none,
          labelSelectorCompile := fun _ => none }
        { Spec := { Plugins := ["zeta"],
                    Selector := { IssuerRef := none, Namespace := none } } } =
      (webhook.unrecognisedPluginErrors
          { registeredPlugins := ["x"], webhooks := [], decoder := none,
            labelSelectorCompile := fun _ => none }
          { Spec := { Plugins := ["zeta"],
                      Selector := { IssuerRef := none, Namespace := none } } } ++
        webhook.selectorRequiredErrors
          { Spec := { Plugins := ["zeta"],
                      Selector := { IssuerRef := none, Namespace := none } } } ++
        webhook.matchLabelsErrors
          { registeredPlugins := ["x"], webhooks := [], decoder := none,
            labelSelectorCompile := fun _ => none }
          { Spec := { Plugins := ["zeta"],
                      Selector := { IssuerRef := none, Namespace := none } } }, none) :=
  (C9_no_webhooks_never_errors _ rfl _).1

/-- C10: the verdict depends only on the aggregated error list, never on
the plugins' allowed flags: a response with `Allowed == true` contributes
nothing even when its `Errors` are non-empty, a response with
`Allowed == false` and empty `Errors` contributes nothing, and when the
base checks pass and every plugin responds without errors to contribute,
`Handle` returns Allowed. -/
theorem C10_verdict_ignores_allowed_flag (v : webhook.validator)
    (pol : policyapi.CertificateRequestPolicy) :
    (∀ (w : approver.Webhook) (ws : List approver.Webhook) (el : field.ErrorList)
        (r : approver.WebhookResult), w pol = .ok r → r.Allowed = true →
      webhook.runWebhooks (w :: ws) pol el = webhook.runWebhooks ws pol el) ∧
    (∀ (w : approver.Webhook) (ws : List approver.Webhook) (el : field.ErrorList)
        (r : approver.WebhookResult), w pol = .ok r → r.Allowed = false → r.Errors = [] →
      webhook.runWebhooks (w :: ws) pol el = webhook.runWebhooks ws pol el) ∧
    (webhook.baseFieldErrors v pol = [] →
      (∀ w ∈ v.webhooks, ∃ r, w pol = .ok r ∧ (r.Allowed = true ∨ r.Errors = [])) →
      ∀ (req : admission.Request) (dec : admission.Decoder),
        v.decoder = some dec →
        req.RequestKind = some webhook.certificateRequestPolicyGVK →
        dec req = .ok pol →
        webhook.Handle v req = .Allowed "CertificateRequestPolicy validated") := by
  refine ⟨?_, ?_, ?_⟩
  · intro w ws el r hr ha
    rw [webhook.runWebhooks_ok_cons w ws pol el r hr, ha]
    simp
  · intro w ws el r hr ha he
    rw [webhook.runWebhooks_ok_cons w ws pol el r hr, ha, he]
    simp
  · intro hbase hall req dec hdec hreq hdecode
    have hcrp : webhook.certificateRequestPolicy v pol = ([], none) := by
      unfold webhook.certificateRequestPolicy
      rw [hbase]
      exact webhook.runWebhooks_no_denial_errors v.webhooks pol hall []
    unfold webhook.Handle
    rw [hreq]
    simp [webhook.decodeWith, hdec, hdecode, hcrp]

/-- Witness for C10: one plugin allows while carrying a junk error, one
denies with an empty error list; the request is still allowed. -/
theorem C10_verdict_ignores_allowed_flag_witness :    webhook.Handle mixedVerdictValidator sampleRequest =
      .Allowed "CertificateRequestPolicy validated" :=
  (C10_verdict_ignores_allowed_flag mixedVerdictValidator samplePolicy).2.2 rfl
    (by
      intro w hw
      simp only [mixedVerdictValidator, List.mem_cons, List.not_mem_nil, or_false] at hw
      rcases hw with hw | hw
      · exact ⟨{ Allowed := true, Errors := [field.Required "spec" "junk"] },
          by rw [hw]; rfl, Or.inl rfl⟩
      · exact ⟨{ Allowed := false, Errors := [] }, by rw [hw]; rfl, Or.inr rfl⟩)
    sampleRequest sampleDecoder rfl rfl rfl

/-- C3: for a recognized-kind request that decodes successfully and
produces no execution error, `Handle` returns Allowed with the
confirmation message exactly when the aggregated error list is empty,
and otherwise Denied with the list rendered as one aggregated message;
in particular a resource with zero unknown plugin names, at least one
sub-selector present (whose label mapping, when present and non-empty,
compiles) and no plugin denials is Allowed. -/
theorem C3_outcome_mapping (v : webhook.validator)
    (req : admission.Request) (dec : admission.Decoder)
    (pol : policyapi.CertificateRequestPolicy) (el : field.ErrorList)
    (hdec : v.decoder = some dec)
    (hreq : req.RequestKind = some webhook.certificateRequestPolicyGVK)
    (hdecode : dec req = .ok pol)
    (hval : webhook.certificateRequestPolicy v pol = (el, none)) :
    (webhook.Handle v req = .Allowed "CertificateRequestPolicy validated" ↔ el = []) ∧
    (el ≠ [] → webhook.Handle v req = .Denied (field.ToAggregate el)) ∧
    (pol.Spec.Plugins.filter (fun n => !v.registeredPlugins.contains n) = [] →
      (pol.Spec.Selector.IssuerRef.isSome || pol.Spec.Selector.Namespace.isSome) = true →
      (∀ nsSel, pol.Spec.Selector.Namespace = some nsSel →
        nsSel.MatchLabels = [] ∨ v.labelSelectorCompile nsSel.MatchLabels = none) →
      (∀ w ∈ v.webhooks, ∃ r, w pol = .ok r ∧ r.Allowed = true) →
      webhook.Handle v req = .Allowed "CertificateRequestPolicy validated") := by
  have hinst : pol.Spec.Plugins.filter (fun n => !v.registeredPlugins.contains n) = [] →
      (pol.Spec.Selector.IssuerRef.isSome || pol.Spec.Selector.Namespace.isSome) = true →
      (∀ nsSel, pol.Spec.Selector.Namespace = some nsSel →
        nsSel.MatchLabels = [] ∨ v.labelSelectorCompile nsSel.MatchLabels = none) →
      (∀ w ∈ v.webhooks, ∃ r, w pol = .ok r ∧ r.Allowed = true) →
      webhook.Handle v req = .Allowed "CertificateRequestPolicy validated" := by
    intro h1 h2 h3 h4
    have hA : webhook.unrecognisedPluginErrors v pol = [] := by
      rw [webhook.unrecognisedPluginErrors_eq, h1]
      rfl
    have hB := webhook.selectorRequiredErrors_eq_nil pol h2
    have hC := webhook.matchLabelsErrors_eq_nil v pol h3
    have hbase : webhook.baseFieldErrors v pol = [] := by
      simp [webhook.baseFieldErrors, hA, hB, hC]
    have hcrp : webhook.certificateRequestPolicy v pol = ([], none) := by
      unfold webhook.certificateRequestPolicy
      rw [hbase]
      exact webhook.runWebhooks_no_denial_errors v.webhooks pol
        (fun w hw => (h4 w hw).elim (fun r hr => ⟨r, hr.1, Or.inl hr.2⟩)) []
    unfold webhook.Handle
    rw [hreq]
    simp [webhook.decodeWith, hdec, hdecode, hcrp]
  refine ⟨?_, ?_, hinst⟩
  · by_cases hel : el = []
    · have hA : webhook.Handle v req = .Allowed "CertificateRequestPolicy validated" := by
        unfold webhook.Handle
        rw [hreq]
        simp [webhook.decodeWith, hdec, hdecode, hval, hel]
      exact ⟨fun _ => hel, fun _ => hA⟩
    · have hlen : el.length > 0 := List.length_pos.mpr hel
      have hD : webhook.Handle v req = .Denied (field.ToAggregate el) := by
        unfold webhook.Handle
        rw [hreq]
        simp [webhook.decodeWith, hdec, hdecode, hval, hlen]
      constructor
      · intro hAll
        rw [hD] at hAll
        exact absurd hAll (by simp)
      · intro h
        exact absurd h hel
  · intro hne
    have hlen : el.length > 0 := List.length_pos.mpr hne
    unfold webhook.Handle
    rw [hreq]
    simp [webhook.decodeWith, hdec, hdecode, hval, hlen]

/-- Witness for C3: the plain validator allows the sample resource, which
has no unknown plugin names, an issuer-reference sub-selector and no
plugin denials. -/
theorem C3_outcome_mapping_witness :
    webhook.Handle plainValidator sampleRequest =
      .Allowed "CertificateRequestPolicy validated" :=
  (C3_outcome_mapping plainValidator sampleRequest sampleDecoder samplePolicy []
      rfl rfl rfl rfl).1.mpr rfl

/-- Counterexample for C3 as frozen: a resource with zero unknown plugin
names, exactly one non-empty sub-selector (a namespace matcher with a
non-empty label mapping) and no plugin denials, whose mapping fails to
compile; the request decodes successfully and no execution error occurs,
yet `Handle` returns Denied, not Allowed. -/
theorem C3_outcome_mapping_counterexample :
    webhook.Handle badLabelHandlingValidator sampleRequest =
      .Denied (field.ToAggregate
        [field.Invalid
          ((((field.NewPath "spec").Child "selector").Child "namespace").Child "matchLabels")
          (.labels [("a", "b")]) "parse error"]) ∧
    webhook.Handle badLabelHandlingValidator sampleRequest ≠
      .Allowed "CertificateRequestPolicy validated" := by
  constructor
  · rfl
  · decide

/-! ## Filter characterisations used by C4 and C5 -/

namespace webhook

lemma filter_unrecognisedPluginErrors_of_ne (v : validator)
    (pol : policyapi.CertificateRequestPolicy) (p : field.Error → Bool)
    (hp : ∀ name, p (field.NotSupported ((field.NewPath "spec").Child "plugins") name
      v.registeredPlugins) = false) :
    (unrecognisedPluginErrors v pol).filter p = [] := by
  refine List.filter_eq_nil_iff.mpr (fun e he h => ?_)
  obtain ⟨name, rfl⟩ := mem_unrecognisedPluginErrors v pol e he
  rw [hp name] at h
  cases h

lemma filter_selectorRequiredErrors_of_ne (pol : policyapi.CertificateRequestPolicy)
    (p : field.Error → Bool)
    (hp : p (field.Required ((field.NewPath "spec").Child "selector")
      "one of issuerRef or namespace must be defined, hint: `\x7b\x7d` on either matches everything") = false) :
    (selectorRequiredErrors pol).filter p = [] := by
  refine List.filter_eq_nil_iff.mpr (fun e he h => ?_)
  rw [mem_selectorRequiredErrors pol e he, hp] at h
  cases h

lemma filter_matchLabelsErrors_of_ne (v : validator)
    (pol : policyapi.CertificateRequestPolicy) (p : field.Error → Bool)
    (hp : ∀ m err, p (field.Invalid
      ((((field.NewPath "spec").Child "selector").Child "namespace").Child "matchLabels")
      (.labels m) err) = false) :
    (matchLabelsErrors v pol).filter p = [] := by
  refine List.filter_eq_nil_iff.mpr (fun e he h => ?_)
  obtain ⟨nsSel, err, -, rfl⟩ := mem_matchLabelsErrors v pol e he
  rw [hp nsSel.MatchLabels err] at h
  cases h

end webhook

/-- C4: when both sub-selectors are absent the base checks produce exactly
one required-field error on `spec.selector`, whose detail hints that an
empty sub-selector object matches everything; when at least one
sub-selector is present, no required error on `spec.selector` is
produced. -/
theorem C4_selector_required_error (v : webhook.validator)
    (pol : policyapi.CertificateRequestPolicy) :
    (pol.Spec.Selector.IssuerRef = none → pol.Spec.Selector.Namespace = none →
      (webhook.baseFieldErrors v pol).filter
          (fun e => e.«Type» == field.ErrorType.required && e.Field == "spec.selector") =
        [field.Required ((field.NewPath "spec").Child "selector")
          "one of issuerRef or namespace must be defined, hint: `\x7b\x7d` on either matches everything"]) ∧
    ((pol.Spec.Selector.IssuerRef.isSome || pol.Spec.Selector.Namespace.isSome) = true →
      (webhook.baseFieldErrors v pol).filter
          (fun e => e.«Type» == field.ErrorType.required && e.Field == "spec.selector") = []) := by
  have hA := webhook.filter_unrecognisedPluginErrors_of_ne v pol
    (fun e => e.«Type» == field.ErrorType.required && e.Field == "spec.selector")
    (fun name => rfl)
  have hC := webhook.filter_matchLabelsErrors_of_ne v pol
    (fun e => e.«Type» == field.ErrorType.required && e.Field == "spec.selector")
    (fun m err => rfl)
  constructor
  · intro h1 h2
    have hB : webhook.selectorRequiredErrors pol =
        [field.Required ((field.NewPath "spec").Child "selector")
          "one of issuerRef or namespace must be defined, hint: `\x7b\x7d` on either matches everything"] := by
      simp [webhook.selectorRequiredErrors, h1, h2]
    rw [webhook.baseFieldErrors, List.filter_append, List.filter_append, hA, hC, hB]
    simp only [List.nil_append, List.append_nil]
    rfl
  · intro h
    have hB := webhook.selectorRequiredErrors_eq_nil pol h
    rw [webhook.baseFieldErrors, List.filter_append, List.filter_append, hA, hC, hB]
    rfl

/-- Witness for C4: with no sub-selector the single required error is
produced; with the sample resource's issuer reference present it is not. -/
theorem C4_selector_required_error_witness :
    (webhook.baseFieldErrors plainValidator
        { Spec := { Plugins := [],
                    Selector := { IssuerRef := none, Namespace := none } } }).filter
        (fun e => e.«Type» == field.ErrorType.required && e.Field == "spec.selector") =
      [field.Required ((field.NewPath "spec").Child "selector")
        "one of issuerRef or namespace must be defined, hint: `\x7b\x7d` on either matches everything"] ∧
    (webhook.baseFieldErrors plainValidator samplePolicy).filter
        (fun e => e.«Type» == field.ErrorType.required && e.Field == "spec.selector") = [] :=
  ⟨(C4_selector_required_error plainValidator
      { Spec := { Plugins := [],
                  Selector := { IssuerRef := none, Namespace := none } } }).1 rfl rfl,
    (C4_selector_required_error plainValidator samplePolicy).2 rfl⟩

/-- C5: when the namespace sub-selector is present with a non-empty label
mapping whose compilation fails, the base checks produce exactly one
invalid-field error on `spec.selector.namespace.matchLabels` carrying the
offending mapping and the parse error text; when compilation succeeds, the
mapping is empty, or the sub-selector is absent, no such error is
produced. -/
theorem C5_matchlabels_invalid_error (v : webhook.validator)
    (pol : policyapi.CertificateRequestPolicy) :
    (∀ nsSel err, pol.Spec.Selector.Namespace = some nsSel →
      nsSel.MatchLabels ≠ [] →
      v.labelSelectorCompile nsSel.MatchLabels = some err →
      (webhook.baseFieldErrors v pol).filter
          (fun e => e.«Type» == field.ErrorType.invalid &&
            e.Field == "spec.selector.namespace.matchLabels") =
        [field.Invalid
          ((((field.NewPath "spec").Child "selector").Child "namespace").Child "matchLabels")
          (.labels nsSel.MatchLabels) err]) ∧
    ((∀ nsSel, pol.Spec.Selector.Namespace = some nsSel →
        nsSel.MatchLabels = [] ∨ v.labelSelectorCompile nsSel.MatchLabels = none) →
      (webhook.baseFieldErrors v pol).filter
          (fun e => e.«Type» == field.ErrorType.invalid &&
            e.Field == "spec.selector.namespace.matchLabels") = []) := by
  have hA := webhook.filter_unrecognisedPluginErrors_of_ne v pol
    (fun e => e.«Type» == field.ErrorType.invalid &&
      e.Field == "spec.selector.namespace.matchLabels")
    (fun name => rfl)
  have hB := webhook.filter_selectorRequiredErrors_of_ne pol
    (fun e => e.«Type» == field.ErrorType.invalid &&
      e.Field == "spec.selector.namespace.matchLabels")
    rfl
  constructor
  · intro nsSel err hns hne hc
    have hlen : nsSel.MatchLabels.length > 0 := List.length_pos.mpr hne
    have hC : webhook.matchLabelsErrors v pol =
        [field.Invalid
          ((((field.NewPath "spec").Child "selector").Child "namespace").Child "matchLabels")
          (.labels nsSel.MatchLabels) err] := by
      simp [webhook.matchLabelsErrors, hns, hlen, hc]
    rw [webhook.baseFieldErrors, List.filter_append, List.filter_append, hA, hB, hC]
    simp only [List.nil_append, List.append_nil]
    rfl
  · intro h
    have hC := webhook.matchLabelsErrors_eq_nil v pol h
    rw [webhook.baseFieldErrors, List.filter_append, List.filter_append, hA, hB, hC]
    rfl

/-- Witness for C5: the failing compiler yields exactly the one invalid
error on the labelled resource, and the sample resource (no namespace
sub-selector) yields none. -/
theorem C5_matchlabels_invalid_error_witness :
    (webhook.baseFieldErrors badLabelValidator labelledPolicy).filter
        (fun e => e.«Type» == field.ErrorType.invalid &&
          e.Field == "spec.selector.namespace.matchLabels") =
      [field.Invalid
        ((((field.NewPath "spec").Child "selector").Child "namespace").Child "matchLabels")
        (.labels [("a", "b")]) "parse error"] ∧
    (webhook.baseFieldErrors plainValidator samplePolicy).filter
        (fun e => e.«Type» == field.ErrorType.invalid &&
          e.Field == "spec.selector.namespace.matchLabels") = [] :=
  ⟨(C5_matchlabels_invalid_error badLabelValidator labelledPolicy).1
      { MatchLabels := [("a", "b")] } "parse error" rfl (by simp) rfl,
    (C5_matchlabels_invalid_error plainValidator samplePolicy).2
      (by intro nsSel h; cases h)⟩

/-! ## Lemmas for the sorted unknown-plugin errors -/

namespace webhook

lemma insertionSort_eq_of_perm (l l2 : List String) (h : l.Perm l2) :
    List.insertionSort (fun a b => a ≤ b) l = List.insertionSort (fun a b => a ≤ b) l2 :=
  List.eq_of_perm_of_sorted
    (((List.perm_insertionSort _ l).trans h).trans (List.perm_insertionSort _ l2).symm)
    (List.sorted_insertionSort _ l) (List.sorted_insertionSort _ l2)

lemma notSupported_name_injective (reg : List String) :
    Function.Injective
      (fun name => field.NotSupported ((field.NewPath "spec").Child "plugins") name reg) := by
  intro a b h
  have h2 := congrArg field.Error.BadValue h
  simpa [field.NotSupported] using h2

end webhook

/-- C2: every plugin name declared in the resource's plugin map that is
absent from the registry yields exactly one not-supported error on
`spec.plugins` listing the full registry; these errors stand sorted
lexicographically at the front of the base error list, and the list is
independent of the iteration order of the plugin map. -/
theorem C2_unknown_plugins_sorted_front (v : webhook.validator)
    (pol pol2 : policyapi.CertificateRequestPolicy)
    (hnd : pol.Spec.Plugins.Nodup)
    (hperm : pol2.Spec.Plugins.Perm pol.Spec.Plugins)
    (hsel : pol2.Spec.Selector = pol.Spec.Selector) :
    (∃ rest, webhook.baseFieldErrors v pol =
        (List.insertionSort (fun a b => a ≤ b)
            (pol.Spec.Plugins.filter (fun n => !v.registeredPlugins.contains n))).map
          (fun name => field.NotSupported ((field.NewPath "spec").Child "plugins") name
            v.registeredPlugins) ++ rest ∧
        ∀ e ∈ rest, e.Field ≠ "spec.plugins") ∧
    (∀ name ∈ pol.Spec.Plugins, name ∉ v.registeredPlugins →
      (webhook.baseFieldErrors v pol).count
        (field.NotSupported ((field.NewPath "spec").Child "plugins") name
          v.registeredPlugins) = 1) ∧
    webhook.baseFieldErrors v pol2 = webhook.baseFieldErrors v pol := by
  refine ⟨?_, ?_, ?_⟩
  · refine ⟨webhook.selectorRequiredErrors pol ++ webhook.matchLabelsErrors v pol, ?_, ?_⟩
    · rw [webhook.baseFieldErrors, webhook.unrecognisedPluginErrors_eq, List.append_assoc]
    · intro e he
      rcases List.mem_append.mp he with hb | hc
      · rw [webhook.mem_selectorRequiredErrors pol e hb]
        decide
      · obtain ⟨nsSel, err, -, rfl⟩ := webhook.mem_matchLabelsErrors v pol e hc
        show ((((field.NewPath "spec").Child "selector").Child "namespace").Child "matchLabels" :
          String) ≠ "spec.plugins"
        decide
  · intro name hname hreg
    have hmemu : name ∈ pol.Spec.Plugins.filter (fun n => !v.registeredPlugins.contains n) :=
      List.mem_filter.mpr ⟨hname, by simp [hreg]⟩
    have hndu : (pol.Spec.Plugins.filter (fun n => !v.registeredPlugins.contains n)).Nodup :=
      hnd.filter _
    have hnds : (List.insertionSort (fun a b => a ≤ b)
        (pol.Spec.Plugins.filter (fun n => !v.registeredPlugins.contains n))).Nodup :=
      (List.perm_insertionSort _ _).nodup_iff.mpr hndu
    have hmems : name ∈ List.insertionSort (fun a b => a ≤ b)
        (pol.Spec.Plugins.filter (fun n => !v.registeredPlugins.contains n)) :=
      (List.mem_insertionSort _).mpr hmemu
    rw [webhook.baseFieldErrors, webhook.unrecognisedPluginErrors_eq,
      List.count_append, List.count_append]
    have h1 : ((List.insertionSort (fun a b => a ≤ b)
        (pol.Spec.Plugins.filter (fun n => !v.registeredPlugins.contains n))).map
          (fun name => field.NotSupported ((field.NewPath "spec").Child "plugins") name
            v.registeredPlugins)).count
        (field.NotSupported ((field.NewPath "spec").Child "plugins") name
          v.registeredPlugins) = 1 := by
      rw [List.count_map_of_injective _ _
        (webhook.notSupported_name_injective v.registeredPlugins)]
      exact List.count_eq_one_of_mem hnds hmems
    have h2 : (webhook.selectorRequiredErrors pol).count
        (field.NotSupported ((field.NewPath "spec").Child "plugins") name
          v.registeredPlugins) = 0 := by
      rw [List.count_eq_zero]
      intro hmem
      have heq := webhook.mem_selectorRequiredErrors pol _ hmem
      have htyp : (field.NotSupported ((field.NewPath "spec").Child "plugins") name
          v.registeredPlugins).«Type» = field.ErrorType.required := by rw [heq]; rfl
      simp [field.NotSupported] at htyp
    have h3 : (webhook.matchLabelsErrors v pol).count
        (field.NotSupported ((field.NewPath "spec").Child "plugins") name
          v.registeredPlugins) = 0 := by
      rw [List.count_eq_zero]
      intro hmem
      obtain ⟨nsSel, err, -, heq⟩ := webhook.mem_matchLabelsErrors v pol _ hmem
      have htyp : (field.NotSupported ((field.NewPath "spec").Child "plugins") name
          v.registeredPlugins).«Type» = field.ErrorType.invalid := by rw [heq]; rfl
      simp [field.NotSupported] at htyp
    rw [h1, h2, h3]
  · have hAeq : webhook.unrecognisedPluginErrors v pol2 =
        webhook.unrecognisedPluginErrors v pol := by
      rw [webhook.unrecognisedPluginErrors_eq, webhook.unrecognisedPluginErrors_eq]
      congr 1
      exact webhook.insertionSort_eq_of_perm _ _ (hperm.filter _)
    have hBeq : webhook.selectorRequiredErrors pol2 =
        webhook.selectorRequiredErrors pol := by
      unfold webhook.selectorRequiredErrors
      rw [hsel]
    have hCeq : webhook.matchLabelsErrors v pol2 = webhook.matchLabelsErrors v pol := by
      unfold webhook.matchLabelsErrors
      rw [hsel]
    rw [webhook.baseFieldErrors, webhook.baseFieldErrors, hAeq, hBeq, hCeq]

/-- Witness for C2: unknown names \x7b"b", "a"\x7d against the registry
["x"]: both iteration orders give the same base list, and each of "a" and
"b" contributes exactly one not-supported error. -/
theorem C2_unknown_plugins_sorted_front_witness :
    webhook.baseFieldErrors registryXValidator policyAB =
      webhook.baseFieldErrors registryXValidator policyBA ∧
    (webhook.baseFieldErrors registryXValidator policyBA).count
      (field.NotSupported ((field.NewPath "spec").Child "plugins") "a" ["x"]) = 1 ∧
    (webhook.baseFieldErrors registryXValidator policyBA).count
      (field.NotSupported ((field.NewPath "spec").Child "plugins") "b" ["x"]) = 1 :=
  ⟨(C2_unknown_plugins_sorted_front registryXValidator policyBA policyAB
      (by decide) (List.Perm.swap "b" "a" []) rfl).2.2,
    (C2_unknown_plugins_sorted_front registryXValidator policyBA policyAB
      (by decide) (List.Perm.swap "b" "a" []) rfl).2.1 "a" (by decide) (by decide),
    (C2_unknown_plugins_sorted_front registryXValidator policyBA policyAB
      (by decide) (List.Perm.swap "b" "a" []) rfl).2.1 "b" (by decide) (by decide)⟩
